import Mathlib

/-!
Shallow embedding of the `WeatherService` class (coordinate/ZIP weather
lookups with an in-memory TTL cache, data normalization and error mapping)
from the repository source, together with theorems checking the claims
the specification makes about it.

Modelling conventions:
* JS numbers are modelled as exact rationals (`ℚ`); timestamps in
  milliseconds as integers (`ℤ`).
* A possibly-absent JS value is an `Option`.  The JS `x || d` default
  pattern treats `0` and the empty string as absent (falsy), which
  `jsOrNum` / `jsOrStr` reproduce.
* `Number.prototype.toFixed(2)` is modelled on exact rationals following
  the ECMAScript algorithm: the sign is split off first, the absolute
  value is rounded to the nearest hundredth (ties away from zero, i.e.
  half-up on the absolute value), and the result is printed with exactly
  two fraction digits.  In particular small negative inputs print as
  "-0.00".
* The HTTP layer is an oracle parameter `FetchOutcome`: either a response
  body (possibly `null`, i.e. `none`) or a thrown axios error shape.
* A lookup returns a `LookupResult`: the value returned or the message of
  the error thrown, the updated service state, and the network request
  issued (if any).
-/

namespace Weather

/-- JS `v || d` for a possibly-absent number: `undefined`/`null` and the
falsy number `0` both fall back to the default `d`. -/
def jsOrNum (v : Option ℚ) (d : ℚ) : ℚ :=
  match v with
  | none => d
  | some x => if x = 0 then d else x

/-- JS `v || d` for a possibly-absent string: `undefined`/`null` and the
falsy empty string both fall back to the default `d`. -/
def jsOrStr (v : Option String) (d : String) : String :=
  match v with
  | none => d
  | some s => if s = "" then d else s

/-! ### Raw (wire) data shapes

The backend payload is an unspecified JSON object; the fields the service
reads are modelled, each possibly absent. -/

/-- Raw `location` object of the backend payload. -/
structure RawLocation where
  name : Option String
  lat : Option ℚ
  lon : Option ℚ
  country : Option String
  timezone : Option String
  deriving DecidableEq

/-- Raw `current` object of the backend payload. -/
structure RawCurrent where
  temperature : Option ℚ
  feelsLike : Option ℚ
  humidity : Option ℚ
  pressure : Option ℚ
  windSpeed : Option ℚ
  windDirection : Option ℚ
  visibility : Option ℚ
  uvIndex : Option ℚ
  condition : Option String
  description : Option String
  icon : Option String
  timestamp : Option ℚ
  deriving DecidableEq

/-- Raw hourly forecast point of the backend payload. -/
structure RawHour where
  time : Option ℚ
  temperature : Option ℚ
  condition : Option String
  description : Option String
  icon : Option String
  precipitation : Option ℚ
  windSpeed : Option ℚ
  deriving DecidableEq

/-- Raw daily forecast point of the backend payload. -/
structure RawDay where
  date : Option ℚ
  temperatureMin : Option ℚ
  temperatureMax : Option ℚ
  condition : Option String
  description : Option String
  icon : Option String
  precipitation : Option ℚ
  humidity : Option ℚ
  windSpeed : Option ℚ
  deriving DecidableEq

/-- A raw backend payload (a present JSON object; an absent payload is
the `none` of `Option RawData` at the use sites). -/
structure RawData where
  location : Option RawLocation
  current : Option RawCurrent
  hourly : Option (List RawHour)
  daily : Option (List RawDay)
  deriving DecidableEq

/-- The raw payload corresponding to the empty JSON object `{}`. -/
def emptyRaw : RawData :=
  { location := none, current := none, hourly := none, daily := none }

/-! ### Normalized (`WeatherSnapshot`) shapes -/

/-- Normalized `location` record. -/
structure LocationInfo where
  name : String
  lat : ℚ
  lon : ℚ
  country : String
  timezone : String
  deriving DecidableEq

/-- Normalized `current` record. -/
structure CurrentInfo where
  temperature : ℚ
  feelsLike : ℚ
  humidity : ℚ
  pressure : ℚ
  windSpeed : ℚ
  windDirection : ℚ
  visibility : ℚ
  uvIndex : ℚ
  condition : String
  description : String
  icon : String
  timestamp : ℚ
  deriving DecidableEq

/-- Normalized hourly forecast point.  `time`, `temperature`, `condition`,
`description` and `icon` are copied through without a default, so they stay
possibly absent. -/
structure HourPoint where
  time : Option ℚ
  temperature : Option ℚ
  condition : Option String
  description : Option String
  icon : Option String
  precipitation : ℚ
  windSpeed : ℚ
  deriving DecidableEq

/-- Normalized daily forecast point; undefaulted fields stay possibly
absent, as in `HourPoint`. -/
structure DayPoint where
  date : Option ℚ
  temperatureMin : Option ℚ
  temperatureMax : Option ℚ
  condition : Option String
  description : Option String
  icon : Option String
  precipitation : ℚ
  humidity : ℚ
  windSpeed : ℚ
  deriving DecidableEq

/-- The normalized weather record produced by `transformWeatherData`. -/
structure WeatherSnapshot where
  location : LocationInfo
  current : CurrentInfo
  hourly : List HourPoint
  daily : List DayPoint
  deriving DecidableEq

/-- Mapper applied to each raw hourly point
(`hour => ({ time: hour.time, ..., precipitation: hour.precipitation || 0, windSpeed: hour.windSpeed || 0 })`). -/
def transformHour (h : RawHour) : HourPoint :=
  { time := h.time
    temperature := h.temperature
    condition := h.condition
    description := h.description
    icon := h.icon
    precipitation := jsOrNum h.precipitation 0
    windSpeed := jsOrNum h.windSpeed 0 }

/-- Mapper applied to each raw daily point. -/
def transformDay (d : RawDay) : DayPoint :=
  { date := d.date
    temperatureMin := d.temperatureMin
    temperatureMax := d.temperatureMax
    condition := d.condition
    description := d.description
    icon := d.icon
    precipitation := jsOrNum d.precipitation 0
    humidity := jsOrNum d.humidity 0
    windSpeed := jsOrNum d.windSpeed 0 }

/-- `transformWeatherData(rawData)`.  The method body first evaluates
`rawData.location` with a plain (non-optional) member access, so a
`null`/`undefined` argument throws a `TypeError` (modelled as
`Except.error ()`); every later access is optional-chained with `||`
defaults.  `now` stands for `Date.now()`, the default for
`current.timestamp`. -/
def transformWeatherData (now : ℤ) : Option RawData → Except Unit WeatherSnapshot
  | none => .error ()
  | some raw =>
    .ok
      { location :=
          { name := jsOrStr (raw.location.bind RawLocation.name) "Unknown Location"
            lat := jsOrNum (raw.location.bind RawLocation.lat) 0
            lon := jsOrNum (raw.location.bind RawLocation.lon) 0
            country := jsOrStr (raw.location.bind RawLocation.country) ""
            timezone := jsOrStr (raw.location.bind RawLocation.timezone) "UTC" }
        current :=
          { temperature := jsOrNum (raw.current.bind RawCurrent.temperature) 0
            feelsLike := jsOrNum (raw.current.bind RawCurrent.feelsLike) 0
            humidity := jsOrNum (raw.current.bind RawCurrent.humidity) 0
            pressure := jsOrNum (raw.current.bind RawCurrent.pressure) 0
            windSpeed := jsOrNum (raw.current.bind RawCurrent.windSpeed) 0
            windDirection := jsOrNum (raw.current.bind RawCurrent.windDirection) 0
            visibility := jsOrNum (raw.current.bind RawCurrent.visibility) 0
            uvIndex := jsOrNum (raw.current.bind RawCurrent.uvIndex) 0
            condition := jsOrStr (raw.current.bind RawCurrent.condition) "clear"
            description := jsOrStr (raw.current.bind RawCurrent.description) "Clear sky"
            icon := jsOrStr (raw.current.bind RawCurrent.icon) "01d"
            timestamp := jsOrNum (raw.current.bind RawCurrent.timestamp) (now : ℚ) }
        hourly := (raw.hourly.map (List.map transformHour)).getD []
        daily := (raw.daily.map (List.map transformDay)).getD [] }

/-! ### `toFixed(2)` and the cache key -/

/-- The number of hundredths that `|q|.toFixed(2)` displays: `n`
minimizing `|n / 100 - |q||`, ties resolved to the larger `n`
(ECMAScript `Number.prototype.toFixed` step), i.e. `⌊100·|q| + 1/2⌋`.
With `|q| = q.num.natAbs / q.den` this floor is the truncating natural
division `(200·|q.num| + q.den) / (2·q.den)`. -/
def fixed2Units (q : ℚ) : ℕ :=
  (200 * q.num.natAbs + q.den) / (2 * q.den)

/-- The exact numeric value displayed by `q.toFixed(2)` (the sign is
reattached; `-0.00` has value `0`). -/
def fixed2Value (q : ℚ) : ℚ :=
  mkRat (if q < 0 then -(fixed2Units q : ℤ) else (fixed2Units q : ℤ)) 100

/-- Prints a number of hundredths with exactly two fraction digits. -/
def printHundredths (n : ℕ) : String :=
  Nat.repr (n / 100) ++ "." ++
    (if n % 100 < 10 then "0" ++ Nat.repr (n % 100) else Nat.repr (n % 100))

/-- `q.toFixed(2)`: sign split off first, so e.g. `(-1/1000).toFixed(2)`
is `"-0.00"`. -/
def toFixed2 (q : ℚ) : String :=
  (if q < 0 then "-" else "") ++ printHundredths (fixed2Units q)

/-- `getCacheKey(lat, lon)`: `` `${lat.toFixed(2)},${lon.toFixed(2)}` ``. -/
def getCacheKey (lat lon : ℚ) : String :=
  toFixed2 lat ++ "," ++ toFixed2 lon

/-! ### Service state, HTTP oracle and lookups -/

/-- A cache entry: `{ data: weatherData, timestamp: Date.now() }`. -/
structure CacheEntry where
  data : WeatherSnapshot
  timestamp : ℤ
  deriving DecidableEq

/-- `cache.get(key)` on the association-list model of the `Map`. -/
def cacheGet : List (String × CacheEntry) → String → Option CacheEntry
  | [], _ => none
  | (k, e) :: rest, key => if k = key then some e else cacheGet rest key

/-- `cache.set(key, entry)`: replaces any entry under the same key. -/
def cacheSet (c : List (String × CacheEntry)) (key : String) (e : CacheEntry) :
    List (String × CacheEntry) :=
  (key, e) :: c.filter (fun p => p.1 ≠ key)

/-- The instance fields of `WeatherService`. -/
structure ServiceState where
  baseURL : String
  cache : List (String × CacheEntry)
  cacheTimeout : ℤ
  deriving DecidableEq

/-- The constructor: `baseURL` is the environment override if set and
non-empty (JS `||`), the cache starts empty, and the TTL is
`10 * 60 * 1000` milliseconds. -/
def mkWeatherService (envApiUrl : Option String) : ServiceState :=
  { baseURL := jsOrStr envApiUrl "/api/weather"
    cache := []
    cacheTimeout := 10 * 60 * 1000 }

/-- `isCacheValid(cacheEntry)`: `Date.now() - cacheEntry.timestamp < this.cacheTimeout`. -/
def isCacheValid (s : ServiceState) (now : ℤ) (e : CacheEntry) : Bool :=
  now - e.timestamp < s.cacheTimeout

/-- The axios error shapes distinguished by `getErrorMessage`:
a response with a status code, a request that got no response, or an
error thrown before/without a request. -/
inductive CaughtError where
  | withResponse (status : ℕ)
  | withRequest
  | other
  deriving DecidableEq

/-- `getErrorMessage(error)`: the `switch` over `error.response.status`
when a response exists, else the `error.request` check. -/
def getErrorMessage : CaughtError → String
  | .withResponse status =>
    if status = 404 then "Location not found. Please check your ZIP code."
    else if status = 429 then "Too many requests. Please wait a moment and try again."
    else if status = 500 then "Weather service is temporarily unavailable."
    else "Unable to fetch weather data. Please try again."
  | .withRequest => "No internet connection. Please check your network."
  | .other => "Something went wrong. Please try again."

/-- The outcome the HTTP layer hands to an `await axios.get(...)`:
either it resolves with a response body (`response.data`, possibly the
JSON value `null`), or it rejects with an axios error shape. -/
inductive FetchOutcome where
  | success (body : Option RawData)
  | failure (e : CaughtError)
  deriving DecidableEq

/-- The GET request issued by a lookup. -/
inductive ReqParams where
  | coords (lat lon : ℚ)
  | zip (z : String)
  deriving DecidableEq

/-- A network request: URL plus query parameters. -/
structure NetRequest where
  url : String
  params : ReqParams
  deriving DecidableEq

/-- Equality on `Except` results is decidable componentwise; this lets
concrete runs of the service be checked by evaluation. -/
instance instDecEqExcept {ε α : Type} [DecidableEq ε] [DecidableEq α] :
    DecidableEq (Except ε α) := fun x y =>
  match x, y with
  | .ok a, .ok b =>
    if h : a = b then .isTrue (by rw [h]) else .isFalse (fun hc => h (by injection hc))
  | .ok _, .error _ => .isFalse (fun hc => Except.noConfusion hc)
  | .error _, .ok _ => .isFalse (fun hc => Except.noConfusion hc)
  | .error a, .error b =>
    if h : a = b then .isTrue (by rw [h]) else .isFalse (fun hc => h (by injection hc))

/-- What one lookup call produces: the value returned to the caller (or
the message of the `new Error(...)` thrown to it), the service state
after the call, and the network request issued, if any. -/
structure LookupResult where
  result : Except String WeatherSnapshot
  state : ServiceState
  request : Option NetRequest
  deriving DecidableEq

/-- Whether the lookup hit the network. -/
def LookupResult.networkCalled (r : LookupResult) : Bool :=
  r.request.isSome

/-- The `try { ... } catch` block of `getWeatherData`: fetch
`{baseURL}/coords`, transform, cache under `cacheKey`, with every thrown
error (axios rejection or the `TypeError` out of `transformWeatherData`
on a null body) mapped through `getErrorMessage`. -/
def coordsFetch (s : ServiceState) (now : ℤ) (fetch : FetchOutcome)
    (lat lon : ℚ) (cacheKey : String) : LookupResult :=
  let req : NetRequest := { url := s.baseURL ++ "/coords", params := .coords lat lon }
  match fetch with
  | .success body =>
    match transformWeatherData now body with
    | .ok w =>
      { result := .ok w
        state := { s with cache := cacheSet s.cache cacheKey { data := w, timestamp := now } }
        request := some req }
    | .error _ =>
      { result := .error (getErrorMessage .other), state := s, request := some req }
  | .failure e =>
    { result := .error (getErrorMessage e), state := s, request := some req }

/-- `getWeatherData(lat, lon)`: cache check, then fetch on miss. -/
def getWeatherData (s : ServiceState) (now : ℤ) (fetch : FetchOutcome)
    (lat lon : ℚ) : LookupResult :=
  let cacheKey := getCacheKey lat lon
  match cacheGet s.cache cacheKey with
  | some cached =>
    if isCacheValid s now cached then
      { result := .ok cached.data, state := s, request := none }
    else coordsFetch s now fetch lat lon cacheKey
  | none => coordsFetch s now fetch lat lon cacheKey

/-- `getWeatherByCoords(lat, lon)` just forwards to `getWeatherData`. -/
def getWeatherByCoords (s : ServiceState) (now : ℤ) (fetch : FetchOutcome)
    (lat lon : ℚ) : LookupResult :=
  getWeatherData s now fetch lat lon

/-- `getWeatherByZip(zipCode)`: always fetches `{baseURL}/zip`, then
caches the transformed data under the key derived from the coordinates
of the *returned* location. -/
def getWeatherByZip (s : ServiceState) (now : ℤ) (fetch : FetchOutcome)
    (zipCode : String) : LookupResult :=
  let req : NetRequest := { url := s.baseURL ++ "/zip", params := .zip zipCode }
  match fetch with
  | .success body =>
    match transformWeatherData now body with
    | .ok w =>
      let cacheKey := getCacheKey w.location.lat w.location.lon
      { result := .ok w
        state := { s with cache := cacheSet s.cache cacheKey { data := w, timestamp := now } }
        request := some req }
    | .error _ =>
      { result := .error (getErrorMessage .other), state := s, request := some req }
  | .failure e =>
    { result := .error (getErrorMessage e), state := s, request := some req }

/-- `clearCache()`: `this.cache.clear()`. -/
def clearCache (s : ServiceState) : ServiceState :=
  { s with cache := [] }

/-- A concrete all-defaults snapshot (the normalization of `{}` at time
`0`), used to build concrete cache states. -/
def zeroSnapshot : WeatherSnapshot :=
  { location := { name := "Unknown Location", lat := 0, lon := 0, country := "", timezone := "UTC" }
    current := { temperature := 0, feelsLike := 0, humidity := 0, pressure := 0, windSpeed := 0
                 windDirection := 0, visibility := 0, uvIndex := 0, condition := "clear"
                 description := "Clear sky", icon := "01d", timestamp := 0 }
    hourly := [], daily := [] }

/-! ### Helper lemmas -/

/-- Looking up the key just written returns the written entry. -/
theorem cacheGet_cacheSet_self (c : List (String × CacheEntry)) (key : String) (e : CacheEntry) :
    cacheGet (cacheSet c key e) key = some e := by
  simp [cacheGet, cacheSet]

/-- On a cache miss, `getWeatherData` runs the fetch block. -/
theorem getWeatherData_miss (s : ServiceState) (now : ℤ) (f : FetchOutcome) (lat lon : ℚ)
    (h : cacheGet s.cache (getCacheKey lat lon) = none) :
    getWeatherData s now f lat lon = coordsFetch s now f lat lon (getCacheKey lat lon) := by
  simp only [getWeatherData, h]

/-- On a fresh cache hit, `getWeatherData` returns the cached data with no
state change and no request. -/
theorem getWeatherData_hit (s : ServiceState) (now : ℤ) (f : FetchOutcome) (lat lon : ℚ)
    (e : CacheEntry) (hget : cacheGet s.cache (getCacheKey lat lon) = some e)
    (hval : now - e.timestamp < s.cacheTimeout) :
    getWeatherData s now f lat lon = { result := .ok e.data, state := s, request := none } := by
  simp only [getWeatherData, hget]
  simp [isCacheValid, hval]

/-- The fetch block always issues the `/coords` GET. -/
theorem coordsFetch_request (s : ServiceState) (now : ℤ) (f : FetchOutcome) (lat lon : ℚ)
    (key : String) :
    (coordsFetch s now f lat lon key).request =
      some { url := s.baseURL ++ "/coords", params := .coords lat lon } := by
  cases f with
  | success body =>
    cases hb : transformWeatherData now body with
    | ok w => simp [coordsFetch, hb]
    | error u => simp [coordsFetch, hb]
  | failure e => rfl

/-- A ZIP lookup always issues the `/zip` GET. -/
theorem getWeatherByZip_request (s : ServiceState) (now : ℤ) (f : FetchOutcome) (zipCode : String) :
    (getWeatherByZip s now f zipCode).request =
      some { url := s.baseURL ++ "/zip", params := .zip zipCode } := by
  cases f with
  | success body =>
    cases hb : transformWeatherData now body with
    | ok w => simp [getWeatherByZip, hb]
    | error u => simp [getWeatherByZip, hb]
  | failure e => rfl

/-! ### Claim theorems -/

/-- C2 (counterexample): on an absent (`null`/`undefined`) raw input,
`transformWeatherData` does not produce a snapshot — it throws, because
`rawData.location` is evaluated without safe navigation on `rawData`
itself.  So the claim that it never fails "including an absent input"
is false. -/
theorem c2_counterexample : transformWeatherData 0 none = Except.error () := rfl

/-- C2 (amended): `transformWeatherData` never fails on any *present*
raw input — every present object, however malformed (any combination of
absent nested fields), yields a well-formed `WeatherSnapshot` — but an
absent (`null`/`undefined`) input throws a `TypeError`. -/
theorem c2_amended_total (now : ℤ) (raw : RawData) :
    (∃ w, transformWeatherData now (some raw) = Except.ok w) ∧
      transformWeatherData now none = Except.error () :=
  ⟨⟨_, rfl⟩, rfl⟩

/-- C4 (counterexample): on the empty raw object at time `1`, the
numeric field `current.timestamp` of the result is `1`, not `0` — the
claim that *every* numeric field defaults to `0` fails on it. -/
theorem c4_counterexample :
    (transformWeatherData 1 (some emptyRaw)).map (fun w => w.current.timestamp) =
        Except.ok 1 ∧
      (transformWeatherData 1 (some emptyRaw)).map (fun w => w.current.timestamp) ≠
        Except.ok 0 := by
  constructor
  · rfl
  · decide

/-- C4 (amended): given the empty object as raw input,
`transformWeatherData` raises no failure and returns the snapshot whose
numeric fields are all `0` except `current.timestamp` (which defaults to
the current time `Date.now()`), whose string fields are the fixed
placeholders, and whose forecast sequences are empty. -/
theorem c4_empty_object (now : ℤ) :
    transformWeatherData now (some emptyRaw) =
      Except.ok
        { location := { name := "Unknown Location", lat := 0, lon := 0, country := ""
                        timezone := "UTC" }
          current := { temperature := 0, feelsLike := 0, humidity := 0, pressure := 0
                       windSpeed := 0, windDirection := 0, visibility := 0, uvIndex := 0
                       condition := "clear", description := "Clear sky", icon := "01d"
                       timestamp := (now : ℚ) }
          hourly := [], daily := [] } := rfl

/-- C6: every ZIP lookup issues the GET `{baseURL}/zip` with the ZIP as
its query parameter — there is no cache check before it, and the result
is the same whatever the cache holds, so a repeated identical ZIP lookup
always hits the network. -/
theorem c6_zip_always_fetches (s : ServiceState) (now : ℤ) (f : FetchOutcome) (zipCode : String) :
    (getWeatherByZip s now f zipCode).request =
        some { url := s.baseURL ++ "/zip", params := .zip zipCode } ∧
      (getWeatherByZip s now f zipCode).networkCalled = true ∧
      ∀ c : List (String × CacheEntry),
        (getWeatherByZip { s with cache := c } now f zipCode).result =
          (getWeatherByZip s now f zipCode).result := by
  refine ⟨getWeatherByZip_request s now f zipCode, ?_, ?_⟩
  · simp [LookupResult.networkCalled, getWeatherByZip_request s now f zipCode]
  · intro c
    cases f with
    | success body =>
      cases hb : transformWeatherData now body with
      | ok w => simp [getWeatherByZip, hb]
      | error u => simp [getWeatherByZip, hb]
    | failure e => rfl

/-- C8: `clearCache()` empties the cache mapping and leaves `baseURL`
and the TTL untouched, and any coordinate lookup right after it issues a
network call regardless of what was cached before. -/
theorem c8_clearCache (s : ServiceState) (now : ℤ) (f : FetchOutcome) (lat lon : ℚ) :
    (clearCache s).cache = [] ∧
      (clearCache s).baseURL = s.baseURL ∧
      (clearCache s).cacheTimeout = s.cacheTimeout ∧
      (getWeatherByCoords (clearCache s) now f lat lon).networkCalled = true := by
  refine ⟨rfl, rfl, rfl, ?_⟩
  have hmiss : cacheGet (clearCache s).cache (getCacheKey lat lon) = none := rfl
  show (getWeatherData (clearCache s) now f lat lon).networkCalled = true
  rw [getWeatherData_miss _ _ _ _ _ hmiss]
  simp [LookupResult.networkCalled, coordsFetch_request]

/-- C1 (counterexample): the pairs `(0.001, 0.001)` and
`(-0.001, -0.001)` round to the same 2-decimal values (both to `0.00` in
each component), the first call populates the cache and the second comes
one millisecond later (well under the TTL) — yet the second call hits
the network, because `toFixed(2)` prints the keys `"0.00,0.00"` and
`"-0.00,-0.00"`.  The third conjunct checks that the very same second
call with the first pair is served from the cache, so the TTL window is
indeed open. -/
theorem c1_counterexample :
    fixed2Value (mkRat 1 1000) = fixed2Value (mkRat (-1) 1000) ∧
      (getWeatherByCoords
          (getWeatherByCoords (mkWeatherService none) 0
            (FetchOutcome.success (some emptyRaw)) (mkRat 1 1000) (mkRat 1 1000)).state
          1 (FetchOutcome.success (some emptyRaw)) (mkRat (-1) 1000)
          (mkRat (-1) 1000)).networkCalled = true ∧
      (getWeatherByCoords
          (getWeatherByCoords (mkWeatherService none) 0
            (FetchOutcome.success (some emptyRaw)) (mkRat 1 1000) (mkRat 1 1000)).state
          1 (FetchOutcome.success (some emptyRaw)) (mkRat 1 1000)
          (mkRat 1 1000)).networkCalled = false :=
  ⟨by decide, by decide, by decide⟩

/-- C1 (amended): for every two coordinate pairs whose latitudes and
longitudes each *format to the same 2-decimal strings* under
`toFixed(2)`, a first `getWeatherByCoords` call that populates the cache
followed by a second call with the other pair while the entry is under
the TTL returns the cached normalized data with no network call and no
state change. -/
theorem c1_cache_hit_same_rounding (s : ServiceState) (now1 now2 : ℤ) (f2 : FetchOutcome)
    (body : RawData) (lat1 lon1 lat2 lon2 : ℚ)
    (hla : toFixed2 lat1 = toFixed2 lat2) (hlo : toFixed2 lon1 = toFixed2 lon2)
    (hmiss : cacheGet s.cache (getCacheKey lat1 lon1) = none)
    (httl : now2 - now1 < s.cacheTimeout) :
    (getWeatherByCoords
        (getWeatherByCoords s now1 (.success (some body)) lat1 lon1).state
        now2 f2 lat2 lon2).request = none ∧
      (getWeatherByCoords
          (getWeatherByCoords s now1 (.success (some body)) lat1 lon1).state
          now2 f2 lat2 lon2).result =
        (getWeatherByCoords s now1 (.success (some body)) lat1 lon1).result ∧
      (getWeatherByCoords
          (getWeatherByCoords s now1 (.success (some body)) lat1 lon1).state
          now2 f2 lat2 lon2).state =
        (getWeatherByCoords s now1 (.success (some body)) lat1 lon1).state := by
  obtain ⟨w0, hw0⟩ : ∃ u, transformWeatherData now1 (some body) = Except.ok u := ⟨_, rfl⟩
  have hkey : getCacheKey lat2 lon2 = getCacheKey lat1 lon1 := by
    unfold getCacheKey; rw [hla, hlo]
  have hr1 : getWeatherByCoords s now1 (.success (some body)) lat1 lon1 =
      { result := .ok w0
        state := { s with
          cache := cacheSet s.cache (getCacheKey lat1 lon1) { data := w0, timestamp := now1 } }
        request := some { url := s.baseURL ++ "/coords", params := .coords lat1 lon1 } } := by
    show getWeatherData s now1 (.success (some body)) lat1 lon1 = _
    rw [getWeatherData_miss _ _ _ _ _ hmiss]
    simp [coordsFetch, hw0]
  rw [hr1]
  have hget :
      cacheGet (cacheSet s.cache (getCacheKey lat1 lon1) { data := w0, timestamp := now1 })
        (getCacheKey lat2 lon2) = some { data := w0, timestamp := now1 } := by
    rw [hkey]; exact cacheGet_cacheSet_self _ _ _
  have h2 :
      getWeatherByCoords
        { s with
          cache := cacheSet s.cache (getCacheKey lat1 lon1) { data := w0, timestamp := now1 } }
        now2 f2 lat2 lon2 =
      { result := .ok w0
        state := { s with
          cache := cacheSet s.cache (getCacheKey lat1 lon1) { data := w0, timestamp := now1 } }
        request := none } := by
    show getWeatherData _ now2 f2 lat2 lon2 = _
    exact getWeatherData_hit
      { s with
        cache := cacheSet s.cache (getCacheKey lat1 lon1) { data := w0, timestamp := now1 } }
      now2 f2 lat2 lon2 { data := w0, timestamp := now1 } hget httl
  rw [h2]
  exact ⟨rfl, rfl, rfl⟩

/-- C1 (witness): a concrete instantiation of the amended claim at the
pair `(0, 0)` twice, with the second call one millisecond later and a
fetch oracle that would fail — the second call still returns the cached
data with no request. -/
theorem c1_witness :
    (getWeatherByCoords
        (getWeatherByCoords (mkWeatherService none) 0
          (.success (some emptyRaw)) 0 0).state
        1 (.failure .other) 0 0).request = none ∧
      (getWeatherByCoords
          (getWeatherByCoords (mkWeatherService none) 0
            (.success (some emptyRaw)) 0 0).state
          1 (.failure .other) 0 0).result =
        (getWeatherByCoords (mkWeatherService none) 0
          (.success (some emptyRaw)) 0 0).result ∧
      (getWeatherByCoords
          (getWeatherByCoords (mkWeatherService none) 0
            (.success (some emptyRaw)) 0 0).state
          1 (.failure .other) 0 0).state =
        (getWeatherByCoords (mkWeatherService none) 0
          (.success (some emptyRaw)) 0 0).state :=
  c1_cache_hit_same_rounding (mkWeatherService none) 0 1 (.failure .other) emptyRaw
    0 0 0 0 rfl rfl rfl (by decide)

/-- C3: a coordinate lookup that reaches the network and fails, and any
failing ZIP lookup, surface exactly `getErrorMessage` of the error to the
caller (and nothing else), and `getErrorMessage` sends each of the six
error conditions — HTTP 404, 429, 500, any other status, request without
response, request not constructible — to exactly its documented
user-facing message. -/
theorem c3_error_messages (s : ServiceState) (now : ℤ) (lat lon : ℚ) (zipCode : String)
    (e : CaughtError) (status : ℕ)
    (hmiss : cacheGet s.cache (getCacheKey lat lon) = none)
    (h404 : status ≠ 404) (h429 : status ≠ 429) (h500 : status ≠ 500) :
    (getWeatherByCoords s now (.failure e) lat lon).result =
        Except.error (getErrorMessage e) ∧
      (getWeatherByZip s now (.failure e) zipCode).result =
        Except.error (getErrorMessage e) ∧
      getErrorMessage (.withResponse 404) = "Location not found. Please check your ZIP code." ∧
      getErrorMessage (.withResponse 429) =
        "Too many requests. Please wait a moment and try again." ∧
      getErrorMessage (.withResponse 500) = "Weather service is temporarily unavailable." ∧
      getErrorMessage (.withResponse status) = "Unable to fetch weather data. Please try again." ∧
      getErrorMessage .withRequest = "No internet connection. Please check your network." ∧
      getErrorMessage .other = "Something went wrong. Please try again." := by
  refine ⟨?_, rfl, rfl, rfl, rfl, ?_, rfl, rfl⟩
  · show (getWeatherData s now (.failure e) lat lon).result = _
    rw [getWeatherData_miss _ _ _ _ _ hmiss]
    rfl
  · simp [getErrorMessage, h404, h429, h500]

/-- C3 (witness): the concrete instantiation at a 404 response with the
empty starting cache and the other-status branch at 503. -/
theorem c3_witness :
    (getWeatherByCoords (mkWeatherService none) 0 (.failure (.withResponse 404)) 0 0).result =
        Except.error (getErrorMessage (.withResponse 404)) ∧
      (getWeatherByZip (mkWeatherService none) 0 (.failure (.withResponse 404)) "99999").result =
        Except.error (getErrorMessage (.withResponse 404)) ∧
      getErrorMessage (.withResponse 404) = "Location not found. Please check your ZIP code." ∧
      getErrorMessage (.withResponse 429) =
        "Too many requests. Please wait a moment and try again." ∧
      getErrorMessage (.withResponse 500) = "Weather service is temporarily unavailable." ∧
      getErrorMessage (.withResponse 503) = "Unable to fetch weather data. Please try again." ∧
      getErrorMessage .withRequest = "No internet connection. Please check your network." ∧
      getErrorMessage .other = "Something went wrong. Please try again." :=
  c3_error_messages (mkWeatherService none) 0 0 0 "99999" (.withResponse 404) 503
    rfl (by decide) (by decide) (by decide)

/-- C5: a successful ZIP lookup immediately followed (within the TTL) by
a coordinate lookup for the coordinates of the returned location is
served from the cache entry the ZIP lookup wrote: same data, no network
request. -/
theorem c5_zip_then_coords (s : ServiceState) (now1 now2 : ℤ) (f2 : FetchOutcome)
    (zipCode : String) (body : RawData) (w : WeatherSnapshot)
    (hw : (getWeatherByZip s now1 (.success (some body)) zipCode).result = Except.ok w)
    (httl : now2 - now1 < s.cacheTimeout) :
    (getWeatherByCoords (getWeatherByZip s now1 (.success (some body)) zipCode).state
        now2 f2 w.location.lat w.location.lon).result = Except.ok w ∧
      (getWeatherByCoords (getWeatherByZip s now1 (.success (some body)) zipCode).state
          now2 f2 w.location.lat w.location.lon).request = none := by
  obtain ⟨w0, hw0⟩ : ∃ u, transformWeatherData now1 (some body) = Except.ok u := ⟨_, rfl⟩
  have hr1 : getWeatherByZip s now1 (.success (some body)) zipCode =
      { result := .ok w0
        state := { s with
          cache := cacheSet s.cache (getCacheKey w0.location.lat w0.location.lon)
            { data := w0, timestamp := now1 } }
        request := some { url := s.baseURL ++ "/zip", params := .zip zipCode } } := by
    simp [getWeatherByZip, hw0]
  rw [hr1] at hw ⊢
  have hww : w0 = w := by
    simpa using hw
  subst hww
  have hget :
      cacheGet
        (cacheSet s.cache (getCacheKey w0.location.lat w0.location.lon)
          { data := w0, timestamp := now1 })
        (getCacheKey w0.location.lat w0.location.lon) = some { data := w0, timestamp := now1 } :=
    cacheGet_cacheSet_self _ _ _
  have h2 :
      getWeatherByCoords
        { s with
          cache := cacheSet s.cache (getCacheKey w0.location.lat w0.location.lon)
            { data := w0, timestamp := now1 } }
        now2 f2 w0.location.lat w0.location.lon =
      { result := .ok w0
        state := { s with
          cache := cacheSet s.cache (getCacheKey w0.location.lat w0.location.lon)
            { data := w0, timestamp := now1 } }
        request := none } := by
    show getWeatherData _ now2 f2 w0.location.lat w0.location.lon = _
    exact getWeatherData_hit
      { s with
        cache := cacheSet s.cache (getCacheKey w0.location.lat w0.location.lon)
          { data := w0, timestamp := now1 } }
      now2 f2 w0.location.lat w0.location.lon { data := w0, timestamp := now1 } hget httl
  rw [h2]
  exact ⟨rfl, rfl⟩

/-- C5 (witness): a concrete successful ZIP lookup for the empty payload
followed one millisecond later by a coordinate lookup at the returned
`(0, 0)` location, with a fetch oracle that would fail — the data comes
back from the cache with no request. -/
theorem c5_witness :
    (getWeatherByCoords
        (getWeatherByZip (mkWeatherService none) 0 (.success (some emptyRaw)) "10001").state
        1 (.failure .other) zeroSnapshot.location.lat zeroSnapshot.location.lon).result =
      Except.ok zeroSnapshot ∧
      (getWeatherByCoords
          (getWeatherByZip (mkWeatherService none) 0 (.success (some emptyRaw)) "10001").state
          1 (.failure .other) zeroSnapshot.location.lat zeroSnapshot.location.lon).request =
        none :=
  c5_zip_then_coords (mkWeatherService none) 0 1 (.failure .other) "10001" emptyRaw
    zeroSnapshot (by decide) (by decide)

/-- C7: a coordinate lookup made when the cached entry for the rounded
pair is at or past the TTL issues a fresh network GET to
`{baseURL}/coords` instead of returning the cached data. -/
theorem c7_ttl_expired_refetch (s : ServiceState) (now : ℤ) (f : FetchOutcome) (lat lon : ℚ)
    (e : CacheEntry) (hget : cacheGet s.cache (getCacheKey lat lon) = some e)
    (hstale : s.cacheTimeout ≤ now - e.timestamp) :
    (getWeatherByCoords s now f lat lon).request =
      some { url := s.baseURL ++ "/coords", params := .coords lat lon } := by
  have hv : isCacheValid s now e = false := by
    simp only [isCacheValid, decide_eq_false_iff_not, not_lt]
    exact hstale
  show (getWeatherData s now f lat lon).request = _
  simp only [getWeatherData, hget, hv, Bool.false_eq_true, if_false]
  exact coordsFetch_request s now f lat lon (getCacheKey lat lon)

/-- C7 (witness): an entry cached at time `0` looked up again exactly at
the 10-minute mark triggers the network request. -/
theorem c7_witness :
    (getWeatherByCoords
        { baseURL := "/api/weather"
          cache := [("0.00,0.00", { data := zeroSnapshot, timestamp := 0 })]
          cacheTimeout := 600000 }
        600000 (.failure .withRequest) 0 0).request =
      some { url := "/api/weather" ++ "/coords", params := .coords 0 0 } :=
  c7_ttl_expired_refetch
    { baseURL := "/api/weather"
      cache := [("0.00,0.00", { data := zeroSnapshot, timestamp := 0 })]
      cacheTimeout := 600000 }
    600000 (.failure .withRequest) 0 0 { data := zeroSnapshot, timestamp := 0 }
    (by decide) (by decide)

/-- Failing runs of the fetch block leave the starting state untouched. -/
theorem coordsFetch_error_state (s : ServiceState) (now : ℤ) (f : FetchOutcome) (lat lon : ℚ)
    (key : String) (msg : String)
    (h : (coordsFetch s now f lat lon key).result = Except.error msg) :
    (coordsFetch s now f lat lon key).state = s := by
  cases f with
  | success body =>
    cases hb : transformWeatherData now body with
    | ok w => simp [coordsFetch, hb] at h
    | error u => simp [coordsFetch, hb]
  | failure e => rfl

/-- A failing `getWeatherData` call leaves the starting state untouched. -/
theorem getWeatherData_error_state (s : ServiceState) (now : ℤ) (f : FetchOutcome) (lat lon : ℚ)
    (msg : String) (h : (getWeatherData s now f lat lon).result = Except.error msg) :
    (getWeatherData s now f lat lon).state = s := by
  by_cases hc : ∃ e, cacheGet s.cache (getCacheKey lat lon) = some e ∧ isCacheValid s now e = true
  · obtain ⟨e, hce, hv⟩ := hc
    have hval : now - e.timestamp < s.cacheTimeout := of_decide_eq_true hv
    rw [getWeatherData_hit s now f lat lon e hce hval] at h
    exact absurd h (by simp)
  · have hrun : getWeatherData s now f lat lon = coordsFetch s now f lat lon (getCacheKey lat lon) := by
      rcases hce : cacheGet s.cache (getCacheKey lat lon) with _ | e
      · exact getWeatherData_miss s now f lat lon hce
      · have hv : isCacheValid s now e = false := by
          cases hbv : isCacheValid s now e with
          | false => rfl
          | true => exact absurd ⟨e, hce, hbv⟩ hc
        simp only [getWeatherData, hce, hv, Bool.false_eq_true, if_false]
    rw [hrun] at h ⊢
    exact coordsFetch_error_state s now f lat lon (getCacheKey lat lon) msg h

/-- C9: whenever a lookup fails — the request rejects, or the body is
`null` and normalization throws — the cache mapping is exactly what it
was before the call; an entry is only written on a fully successful
fetch-and-transform. -/
theorem c9_no_cache_write_on_failure (s : ServiceState) (now : ℤ) (f : FetchOutcome)
    (lat lon : ℚ) (zipCode : String) :
    (∀ msg, (getWeatherByCoords s now f lat lon).result = Except.error msg →
        (getWeatherByCoords s now f lat lon).state.cache = s.cache) ∧
      (∀ msg, (getWeatherByZip s now f zipCode).result = Except.error msg →
        (getWeatherByZip s now f zipCode).state.cache = s.cache) := by
  constructor
  · intro msg hmsg
    have : (getWeatherData s now f lat lon).state = s :=
      getWeatherData_error_state s now f lat lon msg hmsg
    exact congrArg ServiceState.cache this
  · intro msg hmsg
    cases f with
    | success body =>
      cases hb : transformWeatherData now body with
      | ok w => simp [getWeatherByZip, hb] at hmsg
      | error u => simp [getWeatherByZip, hb]
    | failure e => rfl

/-- C9 (witness): a network-unreachable failure on both lookup methods
leaves the (empty) cache exactly as it was. -/
theorem c9_witness :
    (getWeatherByCoords (mkWeatherService none) 0 (.failure .withRequest) 0 0).state.cache =
        (mkWeatherService none).cache ∧
      (getWeatherByZip (mkWeatherService none) 0 (.failure .withRequest) "00000").state.cache =
        (mkWeatherService none).cache :=
  ⟨(c9_no_cache_write_on_failure (mkWeatherService none) 0 (.failure .withRequest) 0 0 "00000").1
      "No internet connection. Please check your network." rfl,
    (c9_no_cache_write_on_failure (mkWeatherService none) 0 (.failure .withRequest) 0 0 "00000").2
      "No internet connection. Please check your network." rfl⟩

/-- C10: a successful ZIP lookup whose payload has no location
coordinates normalizes them to `0`, so the entry is cached under the one
key `"0.00,0.00"`; a subsequent coordinate lookup near `(0, 0)` (both
components formatting to `"0.00"`) within the TTL returns that entry
without a network call. -/
theorem c10_default_zero_key (s : ServiceState) (now1 now2 : ℤ) (f2 : FetchOutcome)
    (zipCode : String) (body : RawData) (lat lon : ℚ) (w : WeatherSnapshot)
    (hw : transformWeatherData now1 (some body) = Except.ok w)
    (hlat : body.location.bind RawLocation.lat = none)
    (hlon : body.location.bind RawLocation.lon = none)
    (hnlat : toFixed2 lat = "0.00") (hnlon : toFixed2 lon = "0.00")
    (httl : now2 - now1 < s.cacheTimeout) :
    (getWeatherByZip s now1 (.success (some body)) zipCode).result = Except.ok w ∧
      w.location.lat = 0 ∧ w.location.lon = 0 ∧
      cacheGet (getWeatherByZip s now1 (.success (some body)) zipCode).state.cache
        "0.00,0.00" = some { data := w, timestamp := now1 } ∧
      (getWeatherByCoords (getWeatherByZip s now1 (.success (some body)) zipCode).state
          now2 f2 lat lon).result = Except.ok w ∧
      (getWeatherByCoords (getWeatherByZip s now1 (.success (some body)) zipCode).state
          now2 f2 lat lon).request = none := by
  have hwlat : w.location.lat = 0 := by
    have : w = (transformWeatherData now1 (some body)).toOption.getD w := by rw [hw]; rfl
    rw [this]
    simp [transformWeatherData, hlat, jsOrNum, Except.toOption, Option.getD]
  have hwlon : w.location.lon = 0 := by
    have : w = (transformWeatherData now1 (some body)).toOption.getD w := by rw [hw]; rfl
    rw [this]
    simp [transformWeatherData, hlon, jsOrNum, Except.toOption, Option.getD]
  have hkey0 : getCacheKey w.location.lat w.location.lon = "0.00,0.00" := by
    rw [hwlat, hwlon]; rfl
  have hkeyc : getCacheKey lat lon = "0.00,0.00" := by
    unfold getCacheKey; rw [hnlat, hnlon]; rfl
  have hr1 : getWeatherByZip s now1 (.success (some body)) zipCode =
      { result := .ok w
        state := { s with cache := cacheSet s.cache "0.00,0.00" { data := w, timestamp := now1 } }
        request := some { url := s.baseURL ++ "/zip", params := .zip zipCode } } := by
    simp [getWeatherByZip, hw, hkey0]
  rw [hr1]
  have hget : cacheGet (cacheSet s.cache "0.00,0.00" { data := w, timestamp := now1 })
      "0.00,0.00" = some { data := w, timestamp := now1 } := cacheGet_cacheSet_self _ _ _
  have hgetc : cacheGet (cacheSet s.cache "0.00,0.00" { data := w, timestamp := now1 })
      (getCacheKey lat lon) = some { data := w, timestamp := now1 } := by rw [hkeyc]; exact hget
  have h2 :
      getWeatherByCoords
        { s with cache := cacheSet s.cache "0.00,0.00" { data := w, timestamp := now1 } }
        now2 f2 lat lon =
      { result := .ok w
        state := { s with cache := cacheSet s.cache "0.00,0.00" { data := w, timestamp := now1 } }
        request := none } := by
    show getWeatherData _ now2 f2 lat lon = _
    exact getWeatherData_hit
      { s with cache := cacheSet s.cache "0.00,0.00" { data := w, timestamp := now1 } }
      now2 f2 lat lon { data := w, timestamp := now1 } hgetc httl
  rw [h2]
  exact ⟨rfl, hwlat, hwlon, hget, rfl, rfl⟩

/-- C10 (witness): the empty payload on a ZIP lookup at time `0`, then a
coordinate lookup at `(0.001, 0.001)` at time `1` with a failing fetch
oracle — the cached all-defaults snapshot comes back with no request. -/
theorem c10_witness :
    (getWeatherByZip (mkWeatherService none) 0 (.success (some emptyRaw)) "00000").result =
        Except.ok zeroSnapshot ∧
      zeroSnapshot.location.lat = 0 ∧ zeroSnapshot.location.lon = 0 ∧
      cacheGet (getWeatherByZip (mkWeatherService none) 0
          (.success (some emptyRaw)) "00000").state.cache "0.00,0.00" =
        some { data := zeroSnapshot, timestamp := 0 } ∧
      (getWeatherByCoords (getWeatherByZip (mkWeatherService none) 0
          (.success (some emptyRaw)) "00000").state
          1 (.failure .other) (mkRat 1 1000) (mkRat 1 1000)).result = Except.ok zeroSnapshot ∧
      (getWeatherByCoords (getWeatherByZip (mkWeatherService none) 0
          (.success (some emptyRaw)) "00000").state
          1 (.failure .other) (mkRat 1 1000) (mkRat 1 1000)).request = none :=
  c10_default_zero_key (mkWeatherService none) 0 1 (.failure .other) "00000" emptyRaw
    (mkRat 1 1000) (mkRat 1 1000) zeroSnapshot (by decide) rfl rfl (by decide) (by decide)
    (by decide)

end Weather
